import Mathlib

/-!
Shallow embedding of the QISUR identity service
(`src/internal/identity/service.go` and its collaborator contracts) for
verification of the specification's claims about registration, email
verification, login, admin seeding and profile updates.

Go interfaces become Lean structures of functions; the injected
dependencies (`ServiceDeps`) keep their nil-ability via `Option`/`Bool`;
the user store becomes an explicit in-memory state (`RepoState`) threaded
through each operation; every collaborator invocation is recorded in a
trace of `Event`s so that call-counting properties (for example "Compare
is invoked exactly once") can be stated.  Wall-clock time is an explicit
`now : Nat` parameter (seconds); `time.Now().After(e)` becomes `now > e`.
-/

set_option autoImplicit false

deriving instance DecidableEq for Except

namespace QISUR

/-- Role names supported by the system (`role.go`: admin, user, client). -/
inductive RoleName where
  | admin
  | user
  | client
deriving DecidableEq, Repr

/-- Account lifecycle states (`user.go`). -/
inductive UserStatus where
  | pendingVerification
  | active
  | blocked
deriving DecidableEq, Repr

/-- Identity record (`user.go`, struct `User`); timestamps are seconds. -/
structure User where
  id : String
  email : String
  fullName : String
  passwordHash : String
  role : RoleName
  status : UserStatus
  isVerified : Bool
  createdAt : Nat
  updatedAt : Nat
deriving DecidableEq, Repr

/-- Error taxonomy of the identity package (`errors.go` sentinels plus the
`ErrInvalidCredentials` sentinel referenced by `service.go`; collaborator
and infrastructure failures are wrapped in `infra`). -/
inductive Err where
  | emailAlreadyRegistered
  | userNotFound
  | userBlocked
  | userNotVerified
  | invalidVerificationCode
  | repositoryNotConfigured
  | passwordHasherNotSet
  | verificationSenderNotSet
  | notImplemented
  | invalidCredentials
  | infra (msg : String)
deriving DecidableEq, Repr

/-- Outcome of a Go call returning `(T, error)`. -/
abbrev Res (α : Type) := Except Err α

/-- PasswordHasher collaborator (`auth.go`): `compare h p = none` models a
nil error, i.e. the hash matches. -/
structure PasswordHasher where
  hash : String → Res String
  compare : String → String → Option Err

/-- TokenProvider collaborator (`auth.go`). -/
structure TokenProvider where
  generate : User → Res String

/-- VerificationCodeGenerator collaborator (`auth.go`). -/
structure VerificationCodeGenerator where
  generate : String → Res String

/-- VerificationSender collaborator (`auth.go`): `send email code = none`
models a nil error (delivery accepted). -/
structure VerificationSender where
  send : String → String → Option Err

/-- RoleRepository collaborator (`repository.go`); only `EnsureRole` is
reached by the operations the claims cover. -/
structure RoleRepo where
  ensureRole : RoleName → Option Err

/-- Injected dependencies (`service.go`, struct `ServiceDeps`); `Option`
(and `Bool` for the user repository, whose behaviour is the explicit
state below) model Go nil interfaces. -/
structure ServiceDeps where
  userRepo : Bool
  roleRepo : Option RoleRepo
  passwordHasher : Option PasswordHasher
  verificationSender : Option VerificationSender
  verificationCodeProvider : Option VerificationCodeGenerator
  tokenProvider : Option TokenProvider

/-- A stored verification challenge row (user id, code, expiry). -/
structure Challenge where
  userId : String
  code : String
  expiresAt : Nat
deriving DecidableEq, Repr

/-- In-memory model of the user store: the users table and the
verification-challenge table (at most one live challenge per user),
plus a counter for generated ids. -/
structure RepoState where
  users : List User
  codes : List Challenge
  nextId : Nat
deriving DecidableEq, Repr

/-- Trace event: one collaborator/store invocation, with its arguments. -/
inductive Event where
  | getByEmail (email : String)
  | getById (id : String)
  | hashPassword (password : String)
  | compareHash (hash password : String)
  | ensureRole (role : RoleName)
  | beginTx
  | commitTx
  | rollbackTx
  | createUser (email : String)
  | generateCode (userId : String)
  | saveCode (userId code : String) (expiresAt : Nat)
  | sendVerification (email code : String)
  | getCode (userId : String)
  | deleteCode (userId : String)
  | setVerification (userId : String) (verified : Bool)
  | updateProfile (u : User)
deriving DecidableEq, Repr

/-- Model of `GetByEmail` (postgres `IdentityRepository.GetByEmail`): first row with
the given email, or the user-not-found sentinel on a miss (the contract
`service.go` relies on via `errors.Is(err, ErrUserNotFound)` and the test
stub returns). -/
def getByEmail (st : RepoState) (email : String) : Res User :=
  match st.users.find? (fun u => u.email == email) with
  | some u => .ok u
  | none => .error .userNotFound

/-- Model of `GetByID` (postgres `IdentityRepository.GetByID`). -/
def getByID (st : RepoState) (id : String) : Res User :=
  match st.users.find? (fun u => u.id == id) with
  | some u => .ok u
  | none => .error .userNotFound

/-- Model of `CreateUser` (postgres `IdentityRepository.CreateUser`): insert with a
store-generated id and timestamps; the unique-email constraint maps to
`ErrEmailAlreadyRegistered`. -/
def createUser (st : RepoState) (now : Nat) (u : User) : Res (User × RepoState) :=
  match st.users.find? (fun v => v.email == u.email) with
  | some _ => .error .emailAlreadyRegistered
  | none =>
    let created : User :=
      { u with id := "user-" ++ toString st.nextId, createdAt := now, updatedAt := now }
    .ok (created, { st with users := st.users ++ [created], nextId := st.nextId + 1 })

/-- Modelled from the spec: the concrete `GetVerificationCode`
implementation is absent from src (only the interface and callers are
present); per spec §4.2/§4.4 a missing challenge surfaces as the generic
invalid-verification-code error ("a second verification attempt after
success finds no challenge and fails with the same generic error"). -/
def getVerificationCode (st : RepoState) (uid : String) : Res (String × Nat) :=
  match st.codes.find? (fun c => c.userId == uid) with
  | some c => .ok (c.code, c.expiresAt)
  | none => .error .invalidVerificationCode

/-- Modelled from the spec: concrete `SaveVerificationCode` is absent from
src; it upserts the single live challenge for the user (spec §3: "exactly
zero or one live challenge per user", replaced on regeneration). -/
def saveVerificationCode (st : RepoState) (uid code : String) (expiresAt : Nat) : RepoState :=
  { st with codes := st.codes.filter (fun c => c.userId != uid) ++ [⟨uid, code, expiresAt⟩] }

/-- Modelled from the spec: concrete `DeleteVerificationCode` is absent
from src; it removes the user's challenge row. -/
def deleteVerificationCode (st : RepoState) (uid : String) : RepoState :=
  { st with codes := st.codes.filter (fun c => c.userId != uid) }

/-- Model of `SetVerification` (postgres `IdentityRepository.SetVerification`):
`UPDATE users SET is_verified = $1 WHERE id = $2`. -/
def setVerification (st : RepoState) (uid : String) (verified : Bool) : RepoState :=
  { st with users := st.users.map (fun u => if u.id == uid then { u with isVerified := verified } else u) }

/-- Model of `UpdateUserProfile` (postgres `IdentityRepository.UpdateUserProfile`):
`UPDATE users SET full_name = $1, updated_at = NOW() WHERE id = $2`,
returning the updated row; zero rows affected is an error. -/
def updateUserProfile (st : RepoState) (now : Nat) (u : User) : Res (User × RepoState) :=
  match st.users.find? (fun v => v.id == u.id) with
  | none => .error (.infra "no rows updated")
  | some stored =>
    let updated : User := { stored with fullName := u.fullName, updatedAt := now }
    .ok (updated,
      { st with users := st.users.map (fun v => if v.id == u.id then updated else v) })

/-- Input structs of `service.go`. -/
structure RegisterUserInput where
  email : String
  password : String
  fullName : String
deriving DecidableEq, Repr

/-- Verification challenge submission (`service.go`). -/
structure VerifyUserInput where
  userID : String
  code : String
deriving DecidableEq, Repr

/-- Login credentials (`service.go`). -/
structure LoginInput where
  email : String
  password : String
deriving DecidableEq, Repr

/-- Issued token wrapper (`service.go`). -/
structure AuthToken where
  token : String
deriving DecidableEq, Repr

/-- Profile update input (`service.go`). -/
structure UpdateUserInput where
  userID : String
  updaterID : String
  fullName : String
deriving DecidableEq, Repr

/-- Admin seed input (`service.go`). -/
structure AdminSeedInput where
  email : String
  password : String
  fullName : String
deriving DecidableEq, Repr

/-- The fixed precomputed dummy bcrypt hash of `service.go`. -/
def dummyPasswordHash : String :=
  "$2a$10$7EqJtq98hPqEX7fNZaFWoOHi4bxmC8lzQju0aDY9.6e2cqE8X4Fi."

/-- Model of `service.consumePasswordHash`: compare the supplied password against
the fixed dummy hash, discarding the result (it equalises timing only);
the trace records the invocation. -/
def consumePasswordHash (deps : ServiceDeps) (password : String) : List Event :=
  match deps.passwordHasher with
  | none => []
  | some _ => [Event.compareHash dummyPasswordHash password]

/-- Model of `service.Login` (`service.go` lines 246-272), returning the Go result
together with the trace of collaborator invocations.  Login performs no
writes, so no state is returned. -/
def login (deps : ServiceDeps) (st : RepoState) (input : LoginInput) :
    Res AuthToken × List Event :=
  if deps.userRepo = false then (.error .repositoryNotConfigured, [])
  else
    match deps.passwordHasher, deps.tokenProvider with
    | none, _ => (.error .notImplemented, [])
    | some _, none => (.error .notImplemented, [])
    | some hasher, some tokenProvider =>
      match getByEmail st input.email with
      | .error e =>
        let tr := Event.getByEmail input.email :: consumePasswordHash deps input.password
        if e = .userNotFound then (.error .invalidCredentials, tr)
        else (.error e, tr)
      | .ok user =>
        let tr := [Event.getByEmail input.email,
                   Event.compareHash user.passwordHash input.password]
        match hasher.compare user.passwordHash input.password with
        | some _ => (.error .invalidCredentials, tr)
        | none =>
          if user.status = .blocked ∨ user.isVerified = false then
            (.error .invalidCredentials, tr)
          else
            match tokenProvider.generate user with
            | .error e => (.error e, tr)
            | .ok token => (.ok ⟨token⟩, tr)

/-- Challenge time-to-live: `15 * time.Minute` (`service.go`), in seconds. -/
def verificationTTL : Nat := 15 * 60

/-- Model of `service.VerifyUser` (`service.go` lines 196-230): check the submitted
code against the stored challenge, replacing an expired challenge with a
freshly generated one (best-effort resend) and marking the user verified
on a match. -/
def verifyUser (deps : ServiceDeps) (st : RepoState) (now : Nat) (input : VerifyUserInput) :
    Res Unit × RepoState × List Event :=
  if deps.userRepo = false then (.error .repositoryNotConfigured, st, [])
  else if input.code = "" then (.error .invalidVerificationCode, st, [])
  else
    match getVerificationCode st input.userID with
    | .error e => (.error e, st, [Event.getCode input.userID])
    | .ok (code, expiresAt) =>
      if now > expiresAt then
        let st1 := deleteVerificationCode st input.userID
        let tr0 := [Event.getCode input.userID, Event.deleteCode input.userID]
        match deps.verificationCodeProvider, deps.verificationSender with
        | some gen, some _ =>
          (match gen.generate input.userID with
           | .error _ =>
             (.error .invalidVerificationCode, st1, tr0 ++ [Event.generateCode input.userID])
           | .ok newCode =>
             let exp := now + verificationTTL
             let st2 := saveVerificationCode st1 input.userID newCode exp
             let tr1 := tr0 ++ [Event.generateCode input.userID,
                                Event.saveCode input.userID newCode exp]
             match getByID st2 input.userID with
             | .error _ =>
               (.error .invalidVerificationCode, st2, tr1 ++ [Event.getById input.userID])
             | .ok user =>
               (.error .invalidVerificationCode, st2,
                tr1 ++ [Event.getById input.userID, Event.sendVerification user.email newCode]))
        | _, _ => (.error .invalidVerificationCode, st1, tr0)
      else if code ≠ input.code then
        (.error .invalidVerificationCode, st, [Event.getCode input.userID])
      else
        let st1 := setVerification st input.userID true
        let st2 := deleteVerificationCode st1 input.userID
        (.ok (), st2,
         [Event.getCode input.userID, Event.setVerification input.userID true,
          Event.deleteCode input.userID])

/-- Model of `service.register` (`service.go` lines 94-151): validate
non-emptiness, reject duplicate emails, hash, ensure the role, then —
when both verification collaborators are configured — create the user and
the challenge inside a transactional scope whose deferred rollback
discards the uncommitted writes on every error exit (the send happens
inside the scope, before the commit); without verification collaborators,
create the user directly. -/
def register (deps : ServiceDeps) (st : RepoState) (now : Nat) (input : RegisterUserInput)
    (role : RoleName) : Res User × RepoState × List Event :=
  match deps.passwordHasher, deps.roleRepo with
  | none, _ => (.error .notImplemented, st, [])
  | some _, none => (.error .notImplemented, st, [])
  | some hasher, some roleRepo =>
    if input.email = "" ∨ input.password = "" ∨ input.fullName = "" then
      (.error .invalidCredentials, st, [])
    else
      match getByEmail st input.email with
      | .ok _ => (.error .emailAlreadyRegistered, st, [Event.getByEmail input.email])
      | .error _ =>
        let tr0 := [Event.getByEmail input.email, Event.hashPassword input.password]
        match hasher.hash input.password with
        | .error e => (.error e, st, tr0)
        | .ok hashed =>
          let tr1 := tr0 ++ [Event.ensureRole role]
          match roleRepo.ensureRole role with
          | some e => (.error e, st, tr1)
          | none =>
            let user : User :=
              { id := "", email := input.email, fullName := input.fullName,
                passwordHash := hashed, role := role,
                status := .pendingVerification, isVerified := false,
                createdAt := 0, updatedAt := 0 }
            match deps.verificationCodeProvider, deps.verificationSender with
            | some gen, some sender =>
              (match createUser st now user with
               | .error e =>
                 (.error e, st,
                  tr1 ++ [Event.beginTx, Event.createUser input.email, Event.rollbackTx])
               | .ok (created, st1) =>
                 match gen.generate created.id with
                 | .error e =>
                   (.error e, st,
                    tr1 ++ [Event.beginTx, Event.createUser input.email,
                            Event.generateCode created.id, Event.rollbackTx])
                 | .ok code =>
                   let exp := now + verificationTTL
                   let st2 := saveVerificationCode st1 created.id code exp
                   let trTx := tr1 ++ [Event.beginTx, Event.createUser input.email,
                                       Event.generateCode created.id,
                                       Event.saveCode created.id code exp,
                                       Event.sendVerification created.email code]
                   match sender.send created.email code with
                   | some e => (.error e, st, trTx ++ [Event.rollbackTx])
                   | none => (.ok created, st2, trTx ++ [Event.commitTx]))
            | _, _ =>
              match createUser st now user with
              | .error e => (.error e, st, tr1 ++ [Event.createUser input.email])
              | .ok (created, st1) =>
                (.ok created, st1, tr1 ++ [Event.createUser input.email])

/-- Model of `service.RegisterClient`: repository nil-check, then `register` with
the client role. -/
def registerClient (deps : ServiceDeps) (st : RepoState) (now : Nat)
    (input : RegisterUserInput) : Res User × RepoState × List Event :=
  if deps.userRepo = false then (.error .repositoryNotConfigured, st, [])
  else register deps st now input .client

/-- Model of `service.RegisterStandardUser`: repository nil-check, then `register`
with the user role. -/
def registerStandardUser (deps : ServiceDeps) (st : RepoState) (now : Nat)
    (input : RegisterUserInput) : Res User × RepoState × List Event :=
  if deps.userRepo = false then (.error .repositoryNotConfigured, st, [])
  else register deps st now input .user

/-- Model of `service.seedAdmin` (`service.go` lines 153-180): no-op on an empty
seed or an already-present email; otherwise create an active,
pre-verified admin user. -/
def seedAdmin (deps : ServiceDeps) (st : RepoState) (now : Nat) (seed : AdminSeedInput) :
    Res Unit × RepoState × List Event :=
  if seed.email = "" ∨ seed.password = "" then (.ok (), st, [])
  else
    match deps.passwordHasher, deps.roleRepo with
    | none, _ => (.error .notImplemented, st, [])
    | some _, none => (.error .notImplemented, st, [])
    | some hasher, some roleRepo =>
      match getByEmail st seed.email with
      | .ok _ => (.ok (), st, [Event.getByEmail seed.email])
      | .error _ =>
        let tr0 := [Event.getByEmail seed.email, Event.hashPassword seed.password]
        match hasher.hash seed.password with
        | .error e => (.error e, st, tr0)
        | .ok hashed =>
          let tr1 := tr0 ++ [Event.ensureRole .admin]
          match roleRepo.ensureRole .admin with
          | some e => (.error e, st, tr1)
          | none =>
            match createUser st now
                { id := "", email := seed.email, fullName := seed.fullName,
                  passwordHash := hashed, role := .admin, status := .active,
                  isVerified := true, createdAt := 0, updatedAt := 0 } with
            | .error e => (.error e, st, tr1 ++ [Event.createUser seed.email])
            | .ok (_, st1) => (.ok (), st1, tr1 ++ [Event.createUser seed.email])

/-- Model of `service.SeedAdmin`: repository nil-check, then `seedAdmin`. -/
def seedAdminOp (deps : ServiceDeps) (st : RepoState) (now : Nat) (seed : AdminSeedInput) :
    Res Unit × RepoState × List Event :=
  if deps.userRepo = false then (.error .repositoryNotConfigured, st, [])
  else seedAdmin deps st now seed

/-- Model of `service.UpdateUser` (`service.go` lines 281-293): load the user,
overwrite the full name when the input supplies a non-empty one, and
persist via `UpdateUserProfile`. -/
def updateUser (deps : ServiceDeps) (st : RepoState) (now : Nat) (input : UpdateUserInput) :
    Res User × RepoState × List Event :=
  if deps.userRepo = false then (.error .repositoryNotConfigured, st, [])
  else
    match getByID st input.userID with
    | .error e => (.error e, st, [Event.getById input.userID])
    | .ok user =>
      let toSave : User :=
        if input.fullName ≠ "" then { user with fullName := input.fullName } else user
      match updateUserProfile st now toSave with
      | .error e => (.error e, st, [Event.getById input.userID, Event.updateProfile toSave])
      | .ok (updated, st1) =>
        (.ok updated, st1, [Event.getById input.userID, Event.updateProfile toSave])

/-- The compare invocations contained in a trace. -/
def compareEvents (tr : List Event) : List Event :=
  tr.filter (fun e => match e with | .compareHash _ _ => true | _ => false)

/-- The send invocations contained in a trace. -/
def sendEvents (tr : List Event) : List Event :=
  tr.filter (fun e => match e with | .sendVerification _ _ => true | _ => false)

/-- Concrete hasher stub for witnesses: deterministic tagging hash whose
compare accepts exactly the tagged hash of the password. -/
def hasherW : PasswordHasher :=
  { hash := fun p => .ok ("h:" ++ p),
    compare := fun hsh p => if hsh = "h:" ++ p then none else some .invalidCredentials }

/-- Concrete token provider stub for witnesses. -/
def tokenW : TokenProvider := { generate := fun u => .ok ("tok-" ++ u.id) }

/-- Concrete role repository stub for witnesses: every role ensured. -/
def roleRepoW : RoleRepo := ⟨fun _ => none⟩

/-- Concrete always-failing sender. -/
def failSenderW : VerificationSender := ⟨fun _ _ => some (.infra "send failed")⟩

/-- Concrete always-succeeding sender. -/
def okSenderW : VerificationSender := ⟨fun _ _ => none⟩

/-- Concrete code generator returning a fixed code. -/
def codeGenW : VerificationCodeGenerator := ⟨fun _ => .ok "123456"⟩

/-- Concrete code generator returning a different fixed code. -/
def codeGen999 : VerificationCodeGenerator := ⟨fun _ => .ok "999888"⟩

/-- An active, verified user whose password (under `hasherW`) is `pw`. -/
def userW : User := ⟨"u1", "a@b.c", "Test", "h:pw", .client, .active, true, 0, 0⟩

/-- A pending-verification user that has already been marked verified
(the state `VerifyUser` leaves a user in, since `SetVerification` never
touches `status`). -/
def pendingVerifiedUser : User :=
  ⟨"u2", "p@b.c", "Pend", "h:pw", .client, .pendingVerification, true, 0, 0⟩

/-- Store holding only `userW`. -/
def stW : RepoState := ⟨[userW], [], 1⟩

/-- Store holding only `pendingVerifiedUser`. -/
def stPending : RepoState := ⟨[pendingVerifiedUser], [], 1⟩

/-- Store holding `userW` and a challenge for it expiring at time 100. -/
def stChal : RepoState := ⟨[userW], [⟨"u1", "123456", 100⟩], 1⟩

/-- The empty store. -/
def emptyState : RepoState := ⟨[], [], 0⟩

/-- Login-capable dependencies (hasher + token provider). -/
def depsW : ServiceDeps := ⟨true, none, some hasherW, none, none, some tokenW⟩

/-- Registration dependencies without verification collaborators. -/
def depsNoVerif : ServiceDeps := ⟨true, some roleRepoW, some hasherW, none, none, none⟩

/-- Registration dependencies whose verification sender always fails. -/
def depsFailSend : ServiceDeps :=
  ⟨true, some roleRepoW, some hasherW, some failSenderW, some codeGenW, none⟩

/-- Verification dependencies with a working sender and the alternate
code generator. -/
def depsVerif : ServiceDeps := ⟨true, none, none, some okSenderW, some codeGen999, none⟩

/-- Admin seed used by witnesses. -/
def seedW : AdminSeedInput := ⟨"admin@q.io", "changeme", "Admin"⟩

theorem find?_false_none {α : Type} (l : List α) : l.find? (fun _ => false) = none :=
  List.find?_eq_none.mpr (fun _ _ => by simp)

theorem getByEmail_error_find (st : RepoState) (email : String) (e : Err)
    (h : getByEmail st email = .error e) :
    st.users.find? (fun u => u.email == email) = none := by
  unfold getByEmail at h
  cases hf : st.users.find? (fun u => u.email == email) with
  | none => rfl
  | some u => rw [hf] at h; exact absurd h (by simp)

theorem getCode_save (st : RepoState) (uid c : String) (e : Nat) :
    getVerificationCode (saveVerificationCode st uid c e) uid = .ok (c, e) := by
  simp [getVerificationCode, saveVerificationCode, find?_false_none]

theorem getCode_delete (st : RepoState) (uid : String) :
    getVerificationCode (deleteVerificationCode st uid) uid =
      .error .invalidVerificationCode := by
  simp [getVerificationCode, deleteVerificationCode, find?_false_none]

theorem getByID_save (st : RepoState) (uid c : String) (e : Nat) (id : String) :
    getByID (saveVerificationCode st uid c e) id = getByID st id := rfl

theorem getByID_delete (st : RepoState) (uid id : String) :
    getByID (deleteVerificationCode st uid) id = getByID st id := rfl

/-- Claim C1: for every Login call whose failure cause is an unknown
email, a mismatching password hash, a blocked account, or an unverified
account, `login` returns the identical generic invalid-credentials error
value. -/
theorem login_uniform_invalid_credentials
    (h : PasswordHasher) (tp : TokenProvider) (rr : Option RoleRepo)
    (vs : Option VerificationSender) (vcp : Option VerificationCodeGenerator)
    (st : RepoState) (input : LoginInput) :
    (getByEmail st input.email = .error .userNotFound →
      (login ⟨true, rr, some h, vs, vcp, some tp⟩ st input).1 = .error .invalidCredentials) ∧
    (∀ u e, getByEmail st input.email = .ok u →
      h.compare u.passwordHash input.password = some e →
      (login ⟨true, rr, some h, vs, vcp, some tp⟩ st input).1 = .error .invalidCredentials) ∧
    (∀ u, getByEmail st input.email = .ok u →
      h.compare u.passwordHash input.password = none →
      u.status = .blocked →
      (login ⟨true, rr, some h, vs, vcp, some tp⟩ st input).1 = .error .invalidCredentials) ∧
    (∀ u, getByEmail st input.email = .ok u →
      h.compare u.passwordHash input.password = none →
      u.isVerified = false →
      (login ⟨true, rr, some h, vs, vcp, some tp⟩ st input).1 = .error .invalidCredentials) := by
  refine ⟨fun hfind => ?_, fun u e hfind hcmp => ?_, fun u hfind hcmp hst => ?_,
          fun u hfind hcmp hv => ?_⟩
  · simp [login, hfind]
  · simp [login, hfind, hcmp]
  · simp [login, hfind, hcmp, hst]
  · simp [login, hfind, hcmp, hv]

/-- Witness for C1 at a concrete unknown-email login. -/
theorem login_uniform_invalid_credentials_witness :
    getByEmail stW "x@y.z" = .error .userNotFound ∧
    (login depsW stW ⟨"x@y.z", "pw"⟩).1 = .error .invalidCredentials :=
  ⟨rfl, (login_uniform_invalid_credentials hasherW tokenW none none none stW
      ⟨"x@y.z", "pw"⟩).1 rfl⟩

/-- Claim C2: in each of the four Login failure cases the hasher's
compare is invoked exactly once, and in the unknown-email case it is
invoked on the fixed dummy hash with the caller-supplied password. -/
theorem login_compare_called_once
    (h : PasswordHasher) (tp : TokenProvider) (rr : Option RoleRepo)
    (vs : Option VerificationSender) (vcp : Option VerificationCodeGenerator)
    (st : RepoState) (input : LoginInput) :
    (getByEmail st input.email = .error .userNotFound →
      compareEvents (login ⟨true, rr, some h, vs, vcp, some tp⟩ st input).2 =
        [Event.compareHash dummyPasswordHash input.password]) ∧
    (∀ u e, getByEmail st input.email = .ok u →
      h.compare u.passwordHash input.password = some e →
      compareEvents (login ⟨true, rr, some h, vs, vcp, some tp⟩ st input).2 =
        [Event.compareHash u.passwordHash input.password]) ∧
    (∀ u, getByEmail st input.email = .ok u →
      h.compare u.passwordHash input.password = none →
      u.status = .blocked →
      compareEvents (login ⟨true, rr, some h, vs, vcp, some tp⟩ st input).2 =
        [Event.compareHash u.passwordHash input.password]) ∧
    (∀ u, getByEmail st input.email = .ok u →
      h.compare u.passwordHash input.password = none →
      u.isVerified = false →
      compareEvents (login ⟨true, rr, some h, vs, vcp, some tp⟩ st input).2 =
        [Event.compareHash u.passwordHash input.password]) := by
  refine ⟨fun hfind => ?_, fun u e hfind hcmp => ?_, fun u hfind hcmp hst => ?_,
          fun u hfind hcmp hv => ?_⟩
  · simp [login, hfind, consumePasswordHash, compareEvents]
  · simp [login, hfind, hcmp, compareEvents]
  · simp [login, hfind, hcmp, hst, compareEvents]
  · simp [login, hfind, hcmp, hv, compareEvents]

/-- Witness for C2 at a concrete unknown-email login: one dummy-hash
comparison. -/
theorem login_compare_called_once_witness :
    getByEmail stW "x@y.z" = .error .userNotFound ∧
    compareEvents (login depsW stW ⟨"x@y.z", "pw"⟩).2 =
      [Event.compareHash dummyPasswordHash "pw"] :=
  ⟨rfl, (login_compare_called_once hasherW tokenW none none none stW
      ⟨"x@y.z", "pw"⟩).1 rfl⟩

/-- Counterexample for C3: with an always-failing sender, registration
performs exactly one send attempt (no retry), never commits, and leaves
the store in its initial state (no durable user or challenge row) —
contradicting post-commit dispatch with one retry and durable rows. -/
theorem register_send_failure_rolls_back :
    (registerClient depsFailSend emptyState 0 ⟨"a@b.c", "secret123", "Test"⟩).1 =
      .error (.infra "send failed") ∧
    (registerClient depsFailSend emptyState 0 ⟨"a@b.c", "secret123", "Test"⟩).2.1 =
      emptyState ∧
    sendEvents (registerClient depsFailSend emptyState 0 ⟨"a@b.c", "secret123", "Test"⟩).2.2 =
      [Event.sendVerification "a@b.c" "123456"] ∧
    Event.commitTx ∉
      (registerClient depsFailSend emptyState 0 ⟨"a@b.c", "secret123", "Test"⟩).2.2 :=
  ⟨rfl, rfl, rfl, by decide⟩

/-- Claim C3 as amended: the verification-code dispatch happens inside
the transactional scope before the commit; a dispatch failure is not
retried (exactly one send attempt) and aborts the registration — the
sender's error propagates and the deferred rollback discards the user
row and the challenge, leaving the store unchanged. -/
theorem register_send_failure_aborts
    (h : PasswordHasher) (rr : RoleRepo) (gen : VerificationCodeGenerator)
    (snd : VerificationSender) (tp : Option TokenProvider)
    (st : RepoState) (now : Nat) (input : RegisterUserInput) (hp c : String) (e : Err)
    (hne : input.email ≠ "") (hnp : input.password ≠ "") (hnf : input.fullName ≠ "")
    (hfind : getByEmail st input.email = .error .userNotFound)
    (hhash : h.hash input.password = .ok hp)
    (hrole : rr.ensureRole .client = none)
    (hgen : gen.generate ("user-" ++ toString st.nextId) = .ok c)
    (hsend : snd.send input.email c = some e) :
    registerClient ⟨true, some rr, some h, some snd, some gen, tp⟩ st now input =
      (.error e, st,
       [Event.getByEmail input.email, Event.hashPassword input.password,
        Event.ensureRole .client, Event.beginTx, Event.createUser input.email,
        Event.generateCode ("user-" ++ toString st.nextId),
        Event.saveCode ("user-" ++ toString st.nextId) c (now + verificationTTL),
        Event.sendVerification input.email c, Event.rollbackTx]) := by
  have hf := getByEmail_error_find st input.email _ hfind
  simp [registerClient, register, hne, hnp, hnf, hfind, hhash, hrole, createUser, hf,
        hgen, hsend]

/-- Witness for the amended C3 at a concrete failing-sender run. -/
theorem register_send_failure_aborts_witness :
    getByEmail emptyState "a@b.c" = .error .userNotFound ∧
    registerClient ⟨true, some roleRepoW, some hasherW, some failSenderW, some codeGenW, none⟩
        emptyState 0 ⟨"a@b.c", "secret123", "Test"⟩ =
      (.error (.infra "send failed"), emptyState,
       [Event.getByEmail "a@b.c", Event.hashPassword "secret123",
        Event.ensureRole .client, Event.beginTx, Event.createUser "a@b.c",
        Event.generateCode ("user-" ++ toString emptyState.nextId),
        Event.saveCode ("user-" ++ toString emptyState.nextId) "123456" (0 + verificationTTL),
        Event.sendVerification "a@b.c" "123456", Event.rollbackTx]) :=
  ⟨rfl, register_send_failure_aborts hasherW roleRepoW codeGenW failSenderW none
      emptyState 0 ⟨"a@b.c", "secret123", "Test"⟩ "h:secret123" "123456"
      (.infra "send failed") (by decide) (by decide) (by decide) rfl rfl rfl rfl rfl⟩

/-- Counterexample for C4: a registration whose password is the single
lowercase character `a` — shorter than any minimum length and drawn from
a single character class — succeeds and writes a user row instead of
failing with a validation error before any write. -/
theorem register_short_password_accepted :
    (registerClient depsNoVerif emptyState 0 ⟨"x@y.z", "a", "T"⟩).1 =
      .ok ⟨"user-0", "x@y.z", "T", "h:a", .client, .pendingVerification, false, 0, 0⟩ ∧
    ((registerClient depsNoVerif emptyState 0 ⟨"x@y.z", "a", "T"⟩).2.1).users =
      [⟨"user-0", "x@y.z", "T", "h:a", .client, .pendingVerification, false, 0, 0⟩] :=
  ⟨rfl, rfl⟩

/-- Claim C4 as amended: registration validates only that the three
fields are non-empty — an empty field fails with the validation error
before any write or collaborator call, while any non-empty password of
any length or character mix is accepted and the user row is written. -/
theorem register_validates_only_presence
    (h : PasswordHasher) (rr : RoleRepo) (tp : Option TokenProvider)
    (st : RepoState) (now : Nat) (input : RegisterUserInput) (hp : String) :
    (input.email = "" ∨ input.password = "" ∨ input.fullName = "" →
      registerClient ⟨true, some rr, some h, none, none, tp⟩ st now input =
        (.error .invalidCredentials, st, []) ∧
      registerStandardUser ⟨true, some rr, some h, none, none, tp⟩ st now input =
        (.error .invalidCredentials, st, [])) ∧
    (input.email ≠ "" → input.password ≠ "" → input.fullName ≠ "" →
      getByEmail st input.email = .error .userNotFound →
      h.hash input.password = .ok hp →
      rr.ensureRole .client = none →
      (registerClient ⟨true, some rr, some h, none, none, tp⟩ st now input).1 =
        .ok ⟨"user-" ++ toString st.nextId, input.email, input.fullName, hp,
             .client, .pendingVerification, false, now, now⟩ ∧
      ((registerClient ⟨true, some rr, some h, none, none, tp⟩ st now input).2.1).users =
        st.users ++ [⟨"user-" ++ toString st.nextId, input.email, input.fullName, hp,
             .client, .pendingVerification, false, now, now⟩]) := by
  constructor
  · intro hempty
    constructor <;> simp [registerClient, registerStandardUser, register, hempty]
  · intro hne hnp hnf hfind hhash hrole
    have hf := getByEmail_error_find st input.email _ hfind
    simp [registerClient, register, hne, hnp, hnf, hfind, hhash, hrole, createUser, hf]

/-- Witness for the amended C4 at a concrete one-character password. -/
theorem register_validates_only_presence_witness :
    getByEmail emptyState "w@q.io" = .error .userNotFound ∧
    ((registerClient ⟨true, some roleRepoW, some hasherW, none, none, none⟩ emptyState 3
        ⟨"w@q.io", "x", "W"⟩).1 =
      .ok ⟨"user-" ++ toString emptyState.nextId, "w@q.io", "W", "h:x",
           .client, .pendingVerification, false, 3, 3⟩ ∧
     ((registerClient ⟨true, some roleRepoW, some hasherW, none, none, none⟩ emptyState 3
        ⟨"w@q.io", "x", "W"⟩).2.1).users =
       emptyState.users ++ [⟨"user-" ++ toString emptyState.nextId, "w@q.io", "W", "h:x",
           .client, .pendingVerification, false, 3, 3⟩]) :=
  ⟨rfl, (register_validates_only_presence hasherW roleRepoW none emptyState 3
      ⟨"w@q.io", "x", "W"⟩ "h:x").2 (by decide) (by decide) (by decide) rfl rfl rfl⟩

/-- Claim C5: verifying an expired challenge deletes it, persists the
freshly generated code with expiry `now + TTL`, dispatches the new code
to the user's email with any send failure swallowed (the sender is
arbitrary), returns the generic invalid-verification-code error, and —
when the new code differs from the old one — resubmitting the old code
at any later time still fails. -/
theorem verify_expired_regenerates
    (rr : Option RoleRepo) (ph : Option PasswordHasher) (tp : Option TokenProvider)
    (gen : VerificationCodeGenerator) (snd : VerificationSender)
    (st : RepoState) (now : Nat) (uid oldCode newCode : String) (exp : Nat) (u : User)
    (hCne : oldCode ≠ "")
    (hchal : getVerificationCode st uid = .ok (oldCode, exp))
    (hexp : now > exp)
    (hgen : gen.generate uid = .ok newCode)
    (huser : getByID st uid = .ok u) :
    (verifyUser ⟨true, rr, ph, some snd, some gen, tp⟩ st now ⟨uid, oldCode⟩).1 =
      .error .invalidVerificationCode ∧
    getVerificationCode
        (verifyUser ⟨true, rr, ph, some snd, some gen, tp⟩ st now ⟨uid, oldCode⟩).2.1 uid =
      .ok (newCode, now + verificationTTL) ∧
    Event.deleteCode uid ∈
      (verifyUser ⟨true, rr, ph, some snd, some gen, tp⟩ st now ⟨uid, oldCode⟩).2.2 ∧
    Event.sendVerification u.email newCode ∈
      (verifyUser ⟨true, rr, ph, some snd, some gen, tp⟩ st now ⟨uid, oldCode⟩).2.2 ∧
    (newCode ≠ oldCode → ∀ now2,
      (verifyUser ⟨true, rr, ph, some snd, some gen, tp⟩
        (verifyUser ⟨true, rr, ph, some snd, some gen, tp⟩ st now ⟨uid, oldCode⟩).2.1
        now2 ⟨uid, oldCode⟩).1 = .error .invalidVerificationCode) := by
  have hmain : verifyUser ⟨true, rr, ph, some snd, some gen, tp⟩ st now ⟨uid, oldCode⟩ =
      (.error .invalidVerificationCode,
       saveVerificationCode (deleteVerificationCode st uid) uid newCode (now + verificationTTL),
       [Event.getCode uid, Event.deleteCode uid, Event.generateCode uid,
        Event.saveCode uid newCode (now + verificationTTL), Event.getById uid,
        Event.sendVerification u.email newCode]) := by
    simp [verifyUser, hCne, hchal, hexp, hgen, getByID_save, getByID_delete, huser,
          verificationTTL]
  refine ⟨by rw [hmain], by rw [hmain]; exact getCode_save _ _ _ _, by rw [hmain]; simp,
    by rw [hmain]; simp, ?_⟩
  intro hne now2
  rw [hmain]
  by_cases h2 : now2 > now + verificationTTL
  · simp only [verifyUser, hCne, getCode_save, h2]
    cases hg2 : gen.generate uid with
    | error e2 => simp [hCne, hg2, getCode_save, h2]
    | ok nc2 =>
      cases hu2 : getByID (saveVerificationCode (deleteVerificationCode
          (saveVerificationCode (deleteVerificationCode st uid) uid newCode
            (now + verificationTTL)) uid) uid nc2 (now2 + verificationTTL)) uid with
      | error e2 => simp [hCne, hg2, getCode_save, h2, hu2]
      | ok u2 => simp [hCne, hg2, getCode_save, h2, hu2]
  · simp [verifyUser, hCne, getCode_save, h2, hne]

/-- Witness for C5 at a concrete expired challenge. -/
theorem verify_expired_regenerates_witness :
    getVerificationCode stChal "u1" = .ok ("123456", 100) ∧
    (verifyUser depsVerif stChal 1000 ⟨"u1", "123456"⟩).1 =
      .error .invalidVerificationCode :=
  ⟨rfl, (verify_expired_regenerates none none none codeGen999 okSenderW stChal 1000 "u1"
      "123456" "999888" 100 userW (by decide) rfl (by decide) rfl rfl).1⟩

/-- Claim C6: verifying the stored, unexpired code succeeds, marks the
user verified, deletes the challenge, and a second verification attempt
for that user (any code, any time) fails with the same generic
invalid-verification-code error. -/
theorem verify_success_consumes_challenge
    (deps : ServiceDeps) (st : RepoState) (now : Nat) (uid code : String) (exp : Nat)
    (hrepo : deps.userRepo = true)
    (hCne : code ≠ "")
    (hchal : getVerificationCode st uid = .ok (code, exp))
    (hexp : ¬ now > exp) :
    (verifyUser deps st now ⟨uid, code⟩).1 = .ok () ∧
    (∀ u₀ ∈ ((verifyUser deps st now ⟨uid, code⟩).2.1).users,
      u₀.id = uid → u₀.isVerified = true) ∧
    getVerificationCode (verifyUser deps st now ⟨uid, code⟩).2.1 uid =
      .error .invalidVerificationCode ∧
    (∀ now2 c2, (verifyUser deps (verifyUser deps st now ⟨uid, code⟩).2.1 now2 ⟨uid, c2⟩).1 =
      .error .invalidVerificationCode) := by
  have hmain : verifyUser deps st now ⟨uid, code⟩ =
      (.ok (), deleteVerificationCode (setVerification st uid true) uid,
       [Event.getCode uid, Event.setVerification uid true, Event.deleteCode uid]) := by
    simp [verifyUser, hrepo, hCne, hchal, hexp]
  refine ⟨by rw [hmain], ?_, by rw [hmain]; exact getCode_delete _ _, ?_⟩
  · rw [hmain]
    intro u₀ hmem hid
    simp only [deleteVerificationCode, setVerification] at hmem
    rcases List.mem_map.mp hmem with ⟨v, hv, rfl⟩
    by_cases hvid : v.id == uid
    · simp [hvid]
    · have hvid2 : (v.id == uid) = false := by simpa using hvid
      simp [hvid2] at hid
      exact absurd hid (by simpa using hvid2)
  · intro now2 c2
    rw [hmain]
    by_cases hc2 : c2 = ""
    · simp [verifyUser, hrepo, hc2]
    · simp [verifyUser, hrepo, hc2, getCode_delete]

/-- Witness for C6 at a concrete unexpired challenge. -/
theorem verify_success_consumes_challenge_witness :
    getVerificationCode stChal "u1" = .ok ("123456", 100) ∧
    (verifyUser ⟨true, none, none, none, none, none⟩ stChal 50 ⟨"u1", "123456"⟩).1 =
      .ok () :=
  ⟨rfl, (verify_success_consumes_challenge ⟨true, none, none, none, none, none⟩ stChal 50
      "u1" "123456" 100 rfl (by decide) rfl (by decide)).1⟩

/-- Counterexample for C7: a user whose status is still
pending_verification but whose verified flag is set (exactly the state
`VerifyUser` produces, since `SetVerification` never updates `status`)
does receive a token on login with the correct password — contradicting
"no token is issued for any user whose status is not active". -/
theorem login_pending_user_gets_token :
    pendingVerifiedUser.status ≠ .active ∧
    (login depsW stPending ⟨"p@b.c", "pw"⟩).1 = .ok ⟨"tok-u2"⟩ :=
  ⟨by decide, rfl⟩

/-- Claim C7 as amended: Login issues the TokenIssuer's token for the
user exactly when the password comparison succeeds, the account status
is not blocked, and the account is verified; if the comparison fails or
the account is blocked or unverified, no token is issued and the generic
invalid-credentials error is returned. -/
theorem login_token_iff_not_blocked_and_verified
    (h : PasswordHasher) (tp : TokenProvider) (rr : Option RoleRepo)
    (vs : Option VerificationSender) (vcp : Option VerificationCodeGenerator)
    (st : RepoState) (input : LoginInput) :
    (∀ u t, getByEmail st input.email = .ok u →
      h.compare u.passwordHash input.password = none →
      u.status ≠ .blocked → u.isVerified = true →
      tp.generate u = .ok t →
      (login ⟨true, rr, some h, vs, vcp, some tp⟩ st input).1 = .ok ⟨t⟩) ∧
    (∀ u e, getByEmail st input.email = .ok u →
      h.compare u.passwordHash input.password = some e →
      (login ⟨true, rr, some h, vs, vcp, some tp⟩ st input).1 =
        .error .invalidCredentials) ∧
    (∀ u, getByEmail st input.email = .ok u →
      h.compare u.passwordHash input.password = none →
      (u.status = .blocked ∨ u.isVerified = false) →
      (login ⟨true, rr, some h, vs, vcp, some tp⟩ st input).1 =
        .error .invalidCredentials) := by
  refine ⟨fun u t hfind hcmp hst hv hgen => ?_, fun u e hfind hcmp => ?_,
          fun u hfind hcmp hbad => ?_⟩
  · simp [login, hfind, hcmp, hst, hv, hgen]
  · simp [login, hfind, hcmp]
  · rcases hbad with hb | hv
    · simp [login, hfind, hcmp, hb]
    · simp [login, hfind, hcmp, hv]

/-- Witness for the amended C7 at a concrete successful login. -/
theorem login_token_iff_not_blocked_and_verified_witness :
    getByEmail stW "a@b.c" = .ok userW ∧
    (login depsW stW ⟨"a@b.c", "pw"⟩).1 = .ok ⟨"tok-u1"⟩ :=
  ⟨rfl, (login_token_iff_not_blocked_and_verified hasherW tokenW none none none stW
      ⟨"a@b.c", "pw"⟩).1 userW "tok-u1" rfl rfl (by decide) rfl rfl⟩

/-- Claim C8: SeedAdmin is a no-op on an empty seed email/password and
when a user with the seed email already exists; otherwise it appends
exactly one admin user with status active and verified flag set; and
running it twice leaves the same store as running it once. -/
theorem seedAdmin_noop_or_creates_admin
    (deps : ServiceDeps) (h : PasswordHasher) (rr : RoleRepo)
    (st : RepoState) (now : Nat) (seed : AdminSeedInput)
    (hrepo : deps.userRepo = true)
    (hph : deps.passwordHasher = some h)
    (hrr : deps.roleRepo = some rr) :
    (seed.email = "" ∨ seed.password = "" →
      seedAdminOp deps st now seed = (.ok (), st, [])) ∧
    (seed.email ≠ "" → seed.password ≠ "" → ∀ u, getByEmail st seed.email = .ok u →
      seedAdminOp deps st now seed = (.ok (), st, [Event.getByEmail seed.email])) ∧
    (∀ hp, seed.email ≠ "" → seed.password ≠ "" →
      getByEmail st seed.email = .error .userNotFound →
      h.hash seed.password = .ok hp →
      rr.ensureRole .admin = none →
      (seedAdminOp deps st now seed).1 = .ok () ∧
      ((seedAdminOp deps st now seed).2.1).users = st.users ++
        [⟨"user-" ++ toString st.nextId, seed.email, seed.fullName, hp,
          .admin, .active, true, now, now⟩]) ∧
    (∀ now2, (seedAdminOp deps (seedAdminOp deps st now seed).2.1 now2 seed).2.1 =
      (seedAdminOp deps st now seed).2.1) := by
  refine ⟨?_, ?_, ?_, ?_⟩
  · intro hempty
    simp [seedAdminOp, seedAdmin, hrepo, hempty]
  · intro hne hnp u hfind
    simp [seedAdminOp, seedAdmin, hrepo, hph, hrr, hne, hnp, hfind]
  · intro hp hne hnp hfind hhash hrole
    have hf := getByEmail_error_find st seed.email _ hfind
    constructor <;>
      simp [seedAdminOp, seedAdmin, hrepo, hph, hrr, hne, hnp, hfind, hhash, hrole,
            createUser, hf]
  · intro now2
    by_cases hempty : seed.email = "" ∨ seed.password = ""
    · simp [seedAdminOp, seedAdmin, hrepo, hempty]
    · push_neg at hempty
      obtain ⟨hne, hnp⟩ := hempty
      cases hfind : getByEmail st seed.email with
      | ok u => simp [seedAdminOp, seedAdmin, hrepo, hph, hrr, hne, hnp, hfind]
      | error e =>
        cases hhash : h.hash seed.password with
        | error e2 =>
          simp [seedAdminOp, seedAdmin, hrepo, hph, hrr, hne, hnp, hfind, hhash]
        | ok hp =>
          cases hrole : rr.ensureRole RoleName.admin with
          | some e3 =>
            simp [seedAdminOp, seedAdmin, hrepo, hph, hrr, hne, hnp, hfind, hhash, hrole]
          | none =>
            have hf := getByEmail_error_find st seed.email _ hfind
            simp [seedAdminOp, seedAdmin, hrepo, hph, hrr, hne, hnp, hfind, hhash, hrole,
                  createUser, hf, getByEmail, List.find?_append]

/-- Witness for C8 at a concrete fresh seed. -/
theorem seedAdmin_noop_or_creates_admin_witness :
    getByEmail emptyState "admin@q.io" = .error .userNotFound ∧
    ((seedAdminOp depsNoVerif emptyState 5 seedW).1 = .ok () ∧
     ((seedAdminOp depsNoVerif emptyState 5 seedW).2.1).users = emptyState.users ++
       [⟨"user-" ++ toString emptyState.nextId, "admin@q.io", "Admin", "h:changeme",
         .admin, .active, true, 5, 5⟩]) :=
  ⟨rfl, (seedAdmin_noop_or_creates_admin depsNoVerif hasherW roleRepoW emptyState 5 seedW
      rfl rfl rfl).2.2.1 "h:changeme" (by decide) (by decide) rfl rfl rfl⟩

/-- Claim C9: UpdateUser passes to persistence a record identical to the
loaded one except possibly the full name — id, email, password hash,
role, status and verified flag are unchanged (in particular no role
change), and the full name changes only when the input supplies a
non-empty one. -/
theorem updateUser_frame
    (deps : ServiceDeps) (st : RepoState) (now : Nat) (input : UpdateUserInput)
    (u : User) (hrepo : deps.userRepo = true)
    (hfind : getByID st input.userID = .ok u) :
    ∃ u₀, (updateUser deps st now input).2.2 =
        [Event.getById input.userID, Event.updateProfile u₀] ∧
      u₀.id = u.id ∧ u₀.email = u.email ∧ u₀.passwordHash = u.passwordHash ∧
      u₀.role = u.role ∧ u₀.status = u.status ∧ u₀.isVerified = u.isVerified ∧
      u₀.fullName = (if input.fullName = "" then u.fullName else input.fullName) := by
  by_cases hfn : input.fullName = ""
  · refine ⟨u, ?_, rfl, rfl, rfl, rfl, rfl, rfl, by simp [hfn]⟩
    simp [updateUser, hrepo, hfind, hfn]
    split <;> rfl
  · refine ⟨{ u with fullName := input.fullName }, ?_, rfl, rfl, rfl, rfl, rfl, rfl,
      by simp [hfn]⟩
    simp [updateUser, hrepo, hfind, hfn]
    split <;> rfl

/-- Witness for C9 at a concrete profile update. -/
theorem updateUser_frame_witness :
    getByID stW "u1" = .ok userW ∧
    ∃ u₀, (updateUser depsW stW 7 ⟨"u1", "u1", "Nuevo"⟩).2.2 =
        [Event.getById "u1", Event.updateProfile u₀] ∧
      u₀.id = userW.id ∧ u₀.email = userW.email ∧ u₀.passwordHash = userW.passwordHash ∧
      u₀.role = userW.role ∧ u₀.status = userW.status ∧ u₀.isVerified = userW.isVerified ∧
      u₀.fullName = (if ("Nuevo" : String) = "" then userW.fullName else "Nuevo") :=
  ⟨rfl, updateUser_frame depsW stW 7 ⟨"u1", "u1", "Nuevo"⟩ userW rfl rfl⟩

/-- Claim C10: VerifyUser with an empty code (repository configured)
returns the generic invalid-verification-code error immediately, with
the store untouched and an empty trace (no repository read or write, no
regeneration, no send). -/
theorem verify_empty_code_no_effects (deps : ServiceDeps) (st : RepoState) (now : Nat)
    (uid : String) (hrepo : deps.userRepo = true) :
    verifyUser deps st now ⟨uid, ""⟩ = (.error .invalidVerificationCode, st, []) := by
  simp [verifyUser, hrepo]

/-- Witness for C10 at a concrete empty-code call. -/
theorem verify_empty_code_no_effects_witness :
    depsW.userRepo = true ∧
    verifyUser depsW stW 0 ⟨"u1", ""⟩ = (.error .invalidVerificationCode, stW, []) :=
  ⟨rfl, verify_empty_code_no_effects depsW stW 0 "u1" rfl⟩

end QISUR
